import Mathlib

/-!
Verification of the evaluation / orchestration layer of the `04_image_translation`
notebook (`src/solution.py`): resume handling for the training cell, the Part-3
evaluation pipeline (file-count assertions, array allocation and the per-index
loading loop, pixel-level metrics), the cellpose instance-segmentation cell, the
inference options and the MC-dropout sampler.

Images are embedded as row-major 2-D arrays of rationals; the floating-point
metric computations of `skimage` / `numpy` (external collaborators of the
notebook) are embedded over `ℚ` (with `ℝ` only where a square root is needed),
which is exact where the claims under study are about exact values.
-/

namespace ImageTranslation

/-- A grayscale image: rows of rational pixel values (a row-major 2-D array). -/
abbrev Img := List (List ℚ)

/-- Row-major flattening of an image, as `numpy.ndarray.flatten`. -/
def flatten (im : Img) : List ℚ := im.flatten

/-- Width of an image (length of its first row; 0 for an empty image). -/
def width (im : Img) : Nat := (im.head?.getD []).length

/-- Mean of a list of pixel values (rational division; 0 for the empty list). -/
def wmean (u : List ℚ) : ℚ := u.sum / u.length

/-- Sample covariance of two equal-length pixel lists, normalized by `n - 1`
as in `skimage`'s `structural_similarity` (`cov_norm = NP / (NP - 1)`) and in
`numpy.cov` (default `ddof = 1`), which `numpy.corrcoef` is built on. -/
def wcov (u v : List ℚ) : ℚ :=
  (((u.zip v).map fun q => (q.1 - wmean u) * (q.2 - wmean v)).sum) /
    ((u.length - 1 : ℕ) : ℚ)

/-- Per-window SSIM term, exactly skimage's
`S = ((2*ux*uy + C1) * (2*vxy + C2)) / ((ux^2 + uy^2 + C1) * (vx + vy + C2))`
with `C1 = (K1*L)^2`, `C2 = (K2*L)^2`, `K1 = 0.01`, `K2 = 0.03`, `L` the
declared data range. -/
def ssimWindow (u v : List ℚ) (dataRange : ℚ) : ℚ :=
  ((2 * wmean u * wmean v + (1 / 100 * dataRange) ^ 2) *
      (2 * wcov u v + (3 / 100 * dataRange) ^ 2)) /
    ((wmean u ^ 2 + wmean v ^ 2 + (1 / 100 * dataRange) ^ 2) *
      (wcov u u + wcov v v + (3 / 100 * dataRange) ^ 2))

/-- The 7×7 window of an image at offset `(i, j)` (skimage's default
`win_size = 7`), flattened to a pixel list. -/
def window7 (im : Img) (i j : Nat) : List ℚ :=
  (((im.drop i).take 7).map fun row => (row.drop j).take 7).flatten

/-- All valid window offsets of an `h × w` image for 7×7 windows: skimage pads,
filters and then crops `pad = 3` pixels on each border, leaving the
`(h - 6) * (w - 6)` fully-contained window positions. -/
def ssimPositions (h w : Nat) : List (Nat × Nat) :=
  List.range (h - 6) ×ˢ List.range (w - 6)

/-- `skimage.metrics.structural_similarity` over exact rational arithmetic:
the mean of the per-window SSIM terms over all valid window positions. -/
def structural_similarity (im0 im1 : Img) (dataRange : ℚ) : ℚ :=
  ((ssimPositions im0.length (width im0)).map fun q =>
      ssimWindow (window7 im0 q.1 q.2) (window7 im1 q.1 q.2) dataRange).sum /
    (((ssimPositions im0.length (width im0)).map fun q =>
      ssimWindow (window7 im0 q.1 q.2) (window7 im1 q.1 q.2) dataRange).length : ℚ)

/-- Mean squared error between two images (over the zipped flattened pixels),
as computed inside `skimage.metrics.peak_signal_noise_ratio`. -/
def mse (im0 im1 : Img) : ℚ :=
  (((flatten im0).zip (flatten im1)).map fun q => (q.1 - q.2) ^ 2).sum /
    ((flatten im0).length : ℚ)

/-- The value of a PSNR computation: `infinite` is the IEEE `inf` produced by
`10 * log10(data_range^2 / 0)`; `finiteLog r` denotes the finite value
`10 * log10 r` (the logarithm is kept symbolic so the embedding stays exact). -/
inductive PsnrValue where
  | infinite
  | finiteLog (r : ℚ)
deriving DecidableEq

/-- `skimage.metrics.peak_signal_noise_ratio`: `10 * log10(data_range^2 / mse)`,
infinite when `mse = 0` (identical images). The degenerate case is a returned
value, not a raised error. -/
def psnr_score (imTrue imTest : Img) (dataRange : ℚ) : PsnrValue :=
  if mse imTrue imTest = 0 then PsnrValue.infinite
  else PsnrValue.finiteLog (dataRange ^ 2 / mse imTrue imTest)

/-- `numpy.corrcoef(u, v)[0, 1]`: the product-moment correlation coefficient
`cov(u,v) / sqrt(cov(u,u) * cov(v,v))`. `none` is the `NaN` that numpy
produces (as data, with a warning) when either input has zero variance. -/
noncomputable def corrcoef (u v : List ℚ) : Option ℝ :=
  if wcov u u = 0 ∨ wcov v v = 0 then none
  else some ((wcov u v : ℝ) / Real.sqrt ((wcov u u : ℝ) * (wcov v v : ℝ)))

/-- Line 491 of `src/solution.py`:
`pearson_score = np.corrcoef(target_image.flatten(), predicted_image.flatten())[0, 1]`. -/
noncomputable def pearson_score (targetImage predictedImage : Img) : Option ℝ :=
  corrcoef (flatten targetImage) (flatten predictedImage)

theorem zip_self_map {α : Type} (l : List α) : l.zip l = l.map fun x => (x, x) := by
  induction l with
  | nil => rfl
  | cons a t ih => simp [List.zip_cons_cons, ih]

theorem wcov_self_nonneg (u : List ℚ) : 0 ≤ wcov u u := by
  unfold wcov
  apply div_nonneg
  · apply List.sum_nonneg
    intro x hx
    rw [zip_self_map, List.map_map] at hx
    obtain ⟨a, _, rfl⟩ := List.mem_map.1 hx
    exact mul_self_nonneg _
  · exact Nat.cast_nonneg _

theorem ssimWindow_self (u : List ℚ) {dr : ℚ} (hdr : dr ≠ 0) :
    ssimWindow u u dr = 1 := by
  have hC1 : (0 : ℚ) < (1 / 100 * dr) ^ 2 :=
    pow_two_pos_of_ne_zero (mul_ne_zero (by norm_num) hdr)
  have hC2 : (0 : ℚ) < (3 / 100 * dr) ^ 2 :=
    pow_two_pos_of_ne_zero (mul_ne_zero (by norm_num) hdr)
  have hm := mul_self_nonneg (wmean u)
  have hc := wcov_self_nonneg u
  have h1 : (0 : ℚ) < 2 * wmean u * wmean u + (1 / 100 * dr) ^ 2 := by nlinarith
  have h2 : (0 : ℚ) < 2 * wcov u u + (3 / 100 * dr) ^ 2 := by nlinarith
  unfold ssimWindow
  have hden : (wmean u ^ 2 + wmean u ^ 2 + (1 / 100 * dr) ^ 2) *
      (wcov u u + wcov u u + (3 / 100 * dr) ^ 2) =
      (2 * wmean u * wmean u + (1 / 100 * dr) ^ 2) *
      (2 * wcov u u + (3 / 100 * dr) ^ 2) := by ring
  rw [hden]
  exact div_self (ne_of_gt (mul_pos h1 h2))

theorem structural_similarity_self (im : Img) {dr : ℚ} (hdr : dr ≠ 0)
    (hh : 7 ≤ im.length) (hw : 7 ≤ width im) :
    structural_similarity im im dr = 1 := by
  unfold structural_similarity
  have hcongr : (ssimPositions im.length (width im)).map
      (fun q => ssimWindow (window7 im q.1 q.2) (window7 im q.1 q.2) dr) =
      (ssimPositions im.length (width im)).map fun _ => (1 : ℚ) :=
    List.map_congr_left fun q _ => ssimWindow_self _ hdr
  rw [hcongr, List.map_const']
  have hlen : (ssimPositions im.length (width im)).length ≠ 0 := by
    unfold ssimPositions
    rw [List.length_product, List.length_range, List.length_range]
    exact Nat.mul_ne_zero (by omega) (by omega)
  rw [List.sum_replicate, List.length_replicate, nsmul_eq_mul, mul_one]
  exact div_self (Nat.cast_ne_zero.mpr hlen)

theorem mse_self (im : Img) : mse im im = 0 := by
  unfold mse
  have hz : (((flatten im).zip (flatten im)).map fun q => (q.1 - q.2) ^ 2).sum = 0 := by
    apply List.sum_eq_zero
    intro x hx
    rw [zip_self_map, List.map_map] at hx
    obtain ⟨a, _, rfl⟩ := List.mem_map.1 hx
    simp
  rw [hz, zero_div]

/-- C5: for every pair of identical same-shape images evaluated by the metric
loop of `src/solution.py` (lines 486–499) under the caller-declared data range,
PSNR is infinite and SSIM equals 1; both are returned as values (the return
types `PsnrValue` and `ℚ` have no error alternative), not raised as errors.
The size hypotheses reflect skimage's requirement that the 7×7 SSIM window fit
inside the image. -/
theorem psnr_infinite_ssim_one_of_identical (im : Img) (dr : ℚ) (hdr : dr ≠ 0)
    (hh : 7 ≤ im.length) (hw : 7 ≤ width im) :
    psnr_score im im dr = PsnrValue.infinite ∧ structural_similarity im im dr = 1 := by
  refine ⟨?_, structural_similarity_self im hdr hh hw⟩
  unfold psnr_score
  rw [if_pos (mse_self im)]

/-- Witness for C5 at a concrete 7×7 image and the data range 1 used by the
notebook. -/
theorem psnr_infinite_ssim_one_of_identical_witness :
    ((1 : ℚ) ≠ 0 ∧ 7 ≤ (List.replicate 7 (List.replicate 7 (0 : ℚ))).length ∧
      7 ≤ width (List.replicate 7 (List.replicate 7 (0 : ℚ)))) ∧
    (psnr_score (List.replicate 7 (List.replicate 7 (0 : ℚ)))
        (List.replicate 7 (List.replicate 7 (0 : ℚ))) 1 = PsnrValue.infinite ∧
      structural_similarity (List.replicate 7 (List.replicate 7 (0 : ℚ)))
        (List.replicate 7 (List.replicate 7 (0 : ℚ))) 1 = 1) :=
  ⟨⟨by norm_num, by simp, by simp [width]⟩,
    psnr_infinite_ssim_one_of_identical _ 1 (by norm_num) (by simp) (by simp [width])⟩

/-- C6: the Pearson metric of lines 486–499 is `np.corrcoef` applied to the two
flattened images; it equals 1 exactly (so also within numerical tolerance) when
the images are equal with nonzero variance, and is NaN (`none`) when either
image has zero variance. -/
theorem pearson_flatten_one_or_nan (targetImage predictedImage : Img) :
    pearson_score targetImage predictedImage =
        corrcoef (flatten targetImage) (flatten predictedImage) ∧
    (predictedImage = targetImage → wcov (flatten targetImage) (flatten targetImage) ≠ 0 →
      pearson_score targetImage predictedImage = some 1) ∧
    (wcov (flatten targetImage) (flatten targetImage) = 0 ∨
        wcov (flatten predictedImage) (flatten predictedImage) = 0 →
      pearson_score targetImage predictedImage = none) := by
  refine ⟨rfl, ?_, ?_⟩
  · intro hpt hvar
    rw [hpt]
    unfold pearson_score corrcoef
    rw [if_neg fun h => hvar (h.elim id id)]
    have h0 : (0 : ℝ) ≤ (wcov (flatten targetImage) (flatten targetImage) : ℝ) := by
      exact_mod_cast wcov_self_nonneg _
    have hcR : (wcov (flatten targetImage) (flatten targetImage) : ℝ) ≠ 0 := by
      exact_mod_cast hvar
    rw [Real.sqrt_mul_self h0, div_self hcR]
  · intro h
    unfold pearson_score corrcoef
    rw [if_pos h]

/-- Witness for C6 at the concrete identical pair `[[0, 1]]`, `[[0, 1]]`,
whose common variance is `1/2 ≠ 0`. -/
theorem pearson_flatten_one_or_nan_witness :
    (([[0, 1]] : Img) = ([[0, 1]] : Img) ∧
      wcov (flatten ([[0, 1]] : Img)) (flatten ([[0, 1]] : Img)) ≠ 0) ∧
    pearson_score ([[0, 1]] : Img) ([[0, 1]] : Img) = some 1 :=
  ⟨⟨rfl, by norm_num [wcov, wmean, flatten]⟩,
    (pearson_flatten_one_or_nan _ _).2.1 rfl (by norm_num [wcov, wmean, flatten])⟩

/-! ### The training cell: resume handling (lines 186–210 of `src/solution.py`) -/

/-- `opt.name = "dlmbl_vsnuclei"` (line 105). -/
def opt_name : String := "dlmbl_vsnuclei"

/-- `opt.checkpoints_dir` (line 107, with `~` left unexpanded; `Path` drops the
trailing slash). -/
def opt_checkpoints_dir : String := "~/data/04_image_translation/dlmbl_vsnuclei/logs"

/-- `opt.continue_train = False` — the value hard-coded at line 187. -/
def opt_continue_train : Bool := false

/-- `iter_path = os.path.join(opt.checkpoints_dir, opt.name, "iter.txt")` (line 189). -/
def iterPath : String := opt_checkpoints_dir ++ "/" ++ opt_name ++ "/" ++ "iter.txt"

/-- The `try: start_epoch, epoch_iter = np.loadtxt(iter_path, ...) except:` block
(lines 190–193). The argument is the outcome of the `np.loadtxt` read: `ok` a
parsed `(start_epoch, epoch_iter)` pair, or `error` carrying whatever exception
the read raised (over an arbitrary exception type, since the handler is a bare
`except:`). The result is total: every exception is swallowed into the
`(1, 0)` fallback. -/
def tryLoadIter {E : Type} (r : Except E (Int × Int)) : Int × Int :=
  match r with
  | Except.ok v => v
  | Except.error _ => (1, 0)

/-- The positional arguments `(start_epoch, epoch_iter, iter_path)` that the
cell passes to `train_model` (lines 198–210). -/
structure TrainModelCall where
  start_epoch : Int
  epoch_iter : Int
  iter_path : String
deriving DecidableEq

/-- The whole resume cell (lines 186–210). In Python, `iter_path` is assigned
only inside the `if opt.continue_train:` branch, so it is an `Option`: `none`
models the name being unbound. Evaluating the `train_model(...)` call then
raises `NameError` when `iter_path` is unbound; otherwise the call is reached
with the computed `(start_epoch, epoch_iter, iter_path)`. -/
def trainingCell {E : Type} (continueTrain : Bool)
    (loadtxtResult : Except E (Int × Int)) : Except String TrainModelCall :=
  match (if continueTrain then some iterPath else none : Option String),
      (if continueTrain then tryLoadIter loadtxtResult else (1, 0)) with
  | some ip, (s, e) => Except.ok ⟨s, e, ip⟩
  | none, _ => Except.error "NameError: name iter_path is not defined"

/-- C2: for every resume request (`continue_train = True`) whose checkpoint
iteration read fails (missing or unreadable `iter.txt`, i.e. `np.loadtxt`
raises), the cell falls back to `start_epoch = 1`, `epoch_iter = 0` and reaches
the `train_model` call (result is `ok`, nothing is raised): training proceeds. -/
theorem resume_missing_checkpoint_falls_back {E : Type} (exc : E) :
    trainingCell true (Except.error exc) = Except.ok ⟨1, 0, iterPath⟩ :=
  rfl

/-- C9: the handler at lines 192–193 is a bare `except:`: for every exception
type and exception value raised while reading the checkpoint iteration file,
the result is the `(1, 0)` fallback, and `tryLoadIter`'s total return type
`Int × Int` shows that no exception propagates to the caller. -/
theorem bare_except_catches_everything (E : Type) (exc : E) :
    tryLoadIter (Except.error exc) = (1, 0) :=
  rfl

/-- C3: with `opt.continue_train = False` — the value the notebook hard-codes at
line 187 — `iter_path` is never assigned, yet line 208 passes it to
`train_model`; every fresh-start run therefore hits a `NameError` before any
training step, whatever the (never performed) checkpoint read would have done. -/
theorem fresh_start_raises_name_error :
    opt_continue_train = false ∧
    ∀ (E : Type) (r : Except E (Int × Int)),
      trainingCell opt_continue_train r =
        Except.error "NameError: name iter_path is not defined" :=
  ⟨rfl, fun _ _ => rfl⟩

/-! ### The cellpose segmentation cell (lines 520–530 of `src/solution.py`) -/

/-- The `--dir` arguments of the two `python -m cellpose` invocations at lines
525 and 527. The source passes `$path_to_virtual_stain` to BOTH — including the
second one, whose comment reads "Run for fluorescence stain". -/
def cellposeInvocationDirs (path_to_virtual_stain : String) : List String :=
  [path_to_virtual_stain, path_to_virtual_stain]

/-- C1 (code evaluated at the failing configuration): whenever the ground-truth
directory differs from the virtual-stain results directory, the external
segmentation service is never applied to the ground-truth fluorescence
directory — both invocations of lines 525 and 527 use the virtual-stain
directory. -/
theorem cellpose_never_run_on_targets (path_to_virtual_stain path_to_targets : String)
    (hne : path_to_targets ≠ path_to_virtual_stain) :
    (∀ d ∈ cellposeInvocationDirs path_to_virtual_stain, d = path_to_virtual_stain) ∧
    path_to_targets ∉ cellposeInvocationDirs path_to_virtual_stain := by
  constructor
  · intro d hd
    simp [cellposeInvocationDirs] at hd
    exact hd
  · simp [cellposeInvocationDirs, hne]

/-- Witness for C1 at the concrete directories of the notebook run:
`path_to_virtual_stain = Path(opt.results_dir)` and
`path_to_targets = Path(f"{output_image_folder}/test/")`. -/
theorem cellpose_never_run_on_targets_witness :
    ("~/data/04_image_translation/tiff_files/test/" : String) ≠
        "~/data/04_image_translation/pretrained_GAN/dlmbl_vsnuclei/results/" ∧
    ((∀ d ∈ cellposeInvocationDirs
          "~/data/04_image_translation/pretrained_GAN/dlmbl_vsnuclei/results/",
        d = "~/data/04_image_translation/pretrained_GAN/dlmbl_vsnuclei/results/") ∧
      "~/data/04_image_translation/tiff_files/test/" ∉ cellposeInvocationDirs
        "~/data/04_image_translation/pretrained_GAN/dlmbl_vsnuclei/results/") :=
  ⟨by decide, cellpose_never_run_on_targets _ _ (by decide)⟩

/-! ### Numpy arrays with aliasing: the Part-3 gather/load code (lines 376–406) -/

/-- A numpy array value: a shape and row-major rational data. -/
structure Arr where
  shape : List Nat
  data : List ℚ
deriving DecidableEq

/-- A reference to an array object (numpy assignment aliases; `.copy()` and
`np.zeros` allocate). -/
abbrev Ref := Nat

/-- The store of allocated array objects. -/
structure Heap where
  cells : List Arr
deriving DecidableEq

/-- Dereference (out-of-range references yield a dummy empty array). -/
def Heap.get (h : Heap) (r : Ref) : Arr := (h.cells[r]?).getD ⟨[], []⟩

/-- Overwrite the array object behind a reference. -/
def Heap.set (h : Heap) (r : Ref) (a : Arr) : Heap := ⟨h.cells.set r a⟩

/-- Allocate a fresh array object and return its reference. -/
def Heap.alloc (h : Heap) (a : Arr) : Heap × Ref := (⟨h.cells ++ [a]⟩, h.cells.length)

/-- `np.zeros((n, r, c))`. -/
def np_zeros3 (n r c : Nat) : Arr := ⟨[n, r, c], List.replicate (n * r * c) 0⟩

/-- Whether numpy broadcasts an array of shape `src` to shape `tgt`:
at most as many axes, and aligning trailing axes each source axis is either 1
or equal to the target axis. -/
def broadcastsTo (src tgt : List Nat) : Bool :=
  decide (src.length ≤ tgt.length) &&
    (src.reverse.zip tgt.reverse).all fun q => q.1 == 1 || q.1 == q.2

/-- Value of the broadcast of `src` at position `(x, y)` of a 2-D target
(axes of extent 1 are repeated). -/
def bval (src : Arr) (x y : Nat) : ℚ :=
  match src.shape with
  | [] => src.data.getD 0 0
  | [c] => src.data.getD (if c = 1 then 0 else y) 0
  | [r, c] => src.data.getD ((if r = 1 then 0 else x) * c + (if c = 1 then 0 else y)) 0
  | _ => 0

/-- The full `r × c` grid of broadcast values, row-major. -/
def bgrid (src : Arr) (slot : List Nat) : List ℚ :=
  match slot with
  | [r, c] => ((List.range r).map fun x => (List.range c).map fun y => bval src x y).flatten
  | _ => []

/-- Replace `seg.length` entries of `d` starting at offset `off`. -/
def setSlice (d : List ℚ) (off : Nat) (seg : List ℚ) : List ℚ :=
  d.take off ++ seg ++ d.drop (off + seg.length)

/-- `A[i] = src` for a numpy array `A` of rank ≥ 1 behind reference `r`:
fails with `IndexError` when `i` is out of range and with `ValueError` when
`src` does not broadcast to the slot shape; otherwise overwrites slot `i` of
the array object in place. -/
def writeSlot (h : Heap) (r : Ref) (i : Nat) (src : Arr) : Except String Heap :=
  match (h.get r).shape with
  | [] => Except.error "IndexError: too many indices for array"
  | n :: slot =>
    if i < n then
      if broadcastsTo src.shape slot then
        Except.ok (h.set r ⟨n :: slot, setSlice (h.get r).data (i * slot.prod) (bgrid src slot)⟩)
      else Except.error "ValueError: could not broadcast input array"
    else Except.error "IndexError: index out of bounds"

/-- The result of lines 392–395 of `src/solution.py`:
`virtual_stains = np.zeros((len(virtual_stain_paths), 512, 512))`,
`target_stains = virtual_stains.copy()`, `phase_images = virtual_stains.copy()`. -/
structure EvalArrays where
  heap : Heap
  virtual_stains : Ref
  target_stains : Ref
  phase_images : Ref

/-- Allocation of the three evaluation arrays, starting from an empty store:
`np.zeros` allocates, each `.copy()` of `virtual_stains` allocates a fresh
object holding the current value behind `virtual_stains`. -/
def evalArraysInit (n : Nat) : EvalArrays :=
  let a1 := Heap.alloc ⟨[]⟩ (np_zeros3 n 512 512)
  let a2 := a1.1.alloc (a1.1.get a1.2)
  let a3 := a2.1.alloc (a2.1.get a1.2)
  ⟨a3.1, a1.2, a2.2, a3.2⟩

/-- The per-index loading loop of lines 397–406: for each zipped
`(virtual_stain, target_stain, phase_image)` triple, store
`phase_images[index] = phase_image`, `target_stains[index] = target_stain`,
`virtual_stains[index] = virtual_stain`, in source order. -/
def loadLoop (h : Heap) (vR tR pR : Ref) (triples : List (Arr × Arr × Arr))
    (i : Nat) : Except String Heap :=
  match triples with
  | [] => Except.ok h
  | (v, t, p) :: rest =>
    match writeSlot h pR i p with
    | Except.error e => Except.error e
    | Except.ok h1 =>
      match writeSlot h1 tR i t with
      | Except.error e => Except.error e
      | Except.ok h2 =>
        match writeSlot h2 vR i v with
        | Except.error e => Except.error e
        | Except.ok h3 => loadLoop h3 vR tR pR rest (i + 1)

/-- The count assertion of lines 388–390:
`assert len(virtual_stain_paths) == len(target_stain_paths) == len(phase_paths)`. -/
def imageCountGate (nv nt np : Nat) : Except String Unit :=
  if nv = nt ∧ nt = np then Except.ok () else Except.error "Number of images do not match."

/-- The Part-3 gather-and-load pipeline (lines 376–406): the count assertion,
then array allocation, then the per-index loading loop over the zipped file
triples. The pixel-metric loop of lines 486–499 consumes the arrays this
produces, so an error here means no per-example pairing or metric computation
happens. -/
def part3Pipeline (vfiles tfiles pfiles : List Arr) : Except String Heap :=
  match imageCountGate vfiles.length tfiles.length pfiles.length with
  | Except.error e => Except.error e
  | Except.ok _ =>
    let A := evalArraysInit vfiles.length
    loadLoop A.heap A.virtual_stains A.target_stains A.phase_images
      (vfiles.zip (tfiles.zip pfiles)) 0

/-- The compile stage of the Task-3.3 mask cell (lines 520–530 of
`src/solution.py`). Python compiles a cell before any of it runs, and line 529
— `target_masks = sorted([ifor i in Path(path_to_targets).glob(...)])` — is
rejected by the parser (`ifor` is two adjacent names where an expression is
required), so every run of this cell stops at compile time: the cellpose
invocations of lines 525 and 527, the mask gathering of lines 528–529 (line
528 itself reads the never-bound name `path_to_predictions`) and the count
assertion of line 530 never execute. The unconditional compile-time outcome is
recorded here explicitly rather than collapsed into the runtime stages. -/
def maskCellCompile : Except String Unit :=
  Except.error "SyntaxError: invalid syntax (line 529: ifor)"

/-- The count assertion of line 530 as written —
`assert len(predicted_masks) == len(target_masks), "Number of masks do not match."`
— followed by the by-index pairing that the instance-score loop of lines
543–554 performs. Reachable only if the cell compiled. -/
def maskCountGate (predicted_masks target_masks : List String) :
    Except String (List (String × String)) :=
  if predicted_masks.length = target_masks.length then
    Except.ok (predicted_masks.zip target_masks)
  else Except.error "Number of masks do not match."

/-- Running the Task-3.3 mask cell on whatever mask files are present: the
compile stage first, then — only were compilation to succeed — the gather,
count assertion and pairing. -/
def maskCellRun (predicted_masks target_masks : List String) :
    Except String (List (String × String)) :=
  match maskCellCompile with
  | Except.error e => Except.error e
  | Except.ok _ => maskCountGate predicted_masks target_masks

/-- C4 (code evaluated at the failing input): unequal counts are NOT uniformly
surfaced by the counting assertions. The image-count assertion of lines
388–390 is reachable and does abort the Part-3 gather-and-load pipeline with
its descriptive message before any pairing or metric computation — shown here
at 0 virtual stains against 1 target stain. But a run with mismatched mask
counts (0 predicted masks against 1 ground-truth mask) aborts with the
compile-time error of line 529, not with the line-530 count assertion's
"Number of masks do not match." — the mask counting assertion the code itself
contains (and spec §7(c) describes) is unreachable on every run. -/
theorem mask_count_assert_unreachable :
    part3Pipeline [] [(⟨[512, 512], []⟩ : Arr)] [] =
        Except.error "Number of images do not match." ∧
    maskCellRun [] ["img_cp_masks.tif"] =
        Except.error "SyntaxError: invalid syntax (line 529: ifor)" ∧
    maskCellRun [] ["img_cp_masks.tif"] ≠
        Except.error "Number of masks do not match." := by
  refine ⟨?_, rfl, fun h => absurd (Except.error.inj h) (by decide)⟩
  unfold part3Pipeline imageCountGate
  rw [if_neg (by decide)]

/-! ### Inference Runner (lines 358–373) and Stochastic Sampler (lines 591–603) -/

/-- The inference options the notebook forces just before building the test
loader and running inference. -/
structure InferenceOpts where
  nThreads : Nat
  batchSize : Nat
  serial_batches : Bool
  no_flip : Bool
deriving DecidableEq

/-- Lines 358–361 of `src/solution.py`: `opt.nThreads = 1`, `opt.batchSize = 1`,
`opt.serial_batches = True` (no shuffle), `opt.no_flip = True` (no flip). -/
def inferenceOpts : InferenceOpts := ⟨1, 1, true, true⟩

/-- One Example of an evaluation stream: a filename-derived identifier and a
source (phase) image. -/
structure EvalExample where
  id : String
  source : Img

/-- Modelled from the spec: the Inference Runner body
(`GANs_MI2I.pix2pixHD.test_dlmbl.inference`, imported at line 92 of
`src/solution.py` but not part of this repository). Per spec §4.4: for each
Example of the evaluation stream, in stream order, produce one output image
and persist it keyed by the Example's identifier; no parameter updates occur.
The model parameters are threaded through and returned unchanged so that the
absence of parameter updates is expressible. -/
def inference {Θ : Type} (stream : List EvalExample) (params : Θ)
    (forward : Θ → Img → Img) : Θ × List (String × Img) :=
  (params, stream.map fun e => (e.id, forward params e.source))

/-- C7: the Inference Runner is configured with thread count 1, batch size 1,
serial (unshuffled) batches and no flips (lines 358–361), performs no
parameter update, and persists exactly one output per Example, keyed by the
Example identifiers in stream order. -/
theorem inference_serial_deterministic_one_output_per_example :
    inferenceOpts.nThreads = 1 ∧ inferenceOpts.batchSize = 1 ∧
    inferenceOpts.serial_batches = true ∧ inferenceOpts.no_flip = true ∧
    ∀ (Θ : Type) (params : Θ) (forward : Θ → Img → Img) (stream : List EvalExample),
      (inference stream params forward).1 = params ∧
      ((inference stream params forward).2).map Prod.fst = stream.map EvalExample.id ∧
      ((inference stream params forward).2).length = stream.length :=
  ⟨rfl, rfl, rfl, rfl, fun _ params forward stream =>
    ⟨rfl, by simp [inference], by simp [inference]⟩⟩

/-- The MC-dropout sampling options the notebook sets before building the
sampler model. -/
structure SamplerOpts where
  variational_inf_runs : Nat
  dropout_variation_inf : Bool
deriving DecidableEq

/-- Lines 598–600 of `src/solution.py`: `opt.variational_inf_runs = 100`
(number of samples per phase input) and `opt.dropout_variation_inf = True`
(use dropout during inference). -/
def samplerOpts : SamplerOpts := ⟨100, true⟩

/-- `np.var` with its default `ddof = 0`: the population variance of a list
(mean squared deviation from the mean). -/
def npvar (xs : List ℚ) : ℚ := (xs.map fun x => (x - wmean xs) ^ 2).sum / xs.length

/-- Per-pixel variance across a list of sampled images (variance over the
sample axis at each pixel). -/
def pixelVariance (samples : List Img) (x y : Nat) : ℚ :=
  npvar (samples.map fun im => (im.getD x []).getD y 0)

/-- Modelled from the spec: the Stochastic Sampler body
(`GANs_MI2I.pix2pixHD.test_dlmbl.sampling`, imported at line 92 of
`src/solution.py` but not part of this repository). Per spec §4.5: with
stochastic regularization forced on by the configured dropout flag, produce
`N = variational_inf_runs` forward passes per Example and reduce them to the
per-pixel variance across the sample axis, forming that Example's
UncertaintyMap. `draw` abstracts one stochastic forward pass (dropout flag,
Example, draw index). -/
def sampling (stream : List EvalExample) (o : SamplerOpts)
    (draw : Bool → EvalExample → Nat → Img) : List (String × (Nat → Nat → ℚ)) :=
  stream.map fun e =>
    (e.id, pixelVariance ((List.range o.variational_inf_runs).map
      (draw o.dropout_variation_inf e)))

/-- C8: under the notebook's sampler options, dropout is forced enabled at
inference time, exactly 100 forward passes are drawn per Example, and the
per-Example UncertaintyMap is the per-pixel variance of those 100 samples. -/
theorem sampler_dropout_on_100_draws_reduced_to_variance :
    samplerOpts.dropout_variation_inf = true ∧
    samplerOpts.variational_inf_runs = 100 ∧
    ∀ (stream : List EvalExample) (draw : Bool → EvalExample → Nat → Img),
      (∀ e, ((List.range samplerOpts.variational_inf_runs).map
          (draw samplerOpts.dropout_variation_inf e)).length = 100) ∧
      sampling stream samplerOpts draw =
        stream.map fun e =>
          (e.id, pixelVariance ((List.range 100).map (draw true e))) :=
  ⟨rfl, rfl, fun _ _ => ⟨fun _ => by simp [samplerOpts], rfl⟩⟩

end ImageTranslation
